import Mathlib

/-!
A shallow embedding of `django-hashid-field` (files `hashid_field/field.py`
and `hashid_field/descriptor.py`) in Lean 4, together with proofs about the
behaviour of the descriptor, the field conversion methods, the configuration
checks and the lookup resolution.

Python values relevant to the code are modelled by the inductive `Value`;
exceptions are modelled by `Except` with the error type `PyError`.  The
`Hashid` wrapper class and the lookup translator classes live in
`hashid_field/hashid.py` and `hashid_field/lookups.py`, which are not part of
the sources at hand; where their behaviour matters they are modelled from the
specification and marked as such in the doc comment.
-/

namespace HashidFieldModel

/-- Modelled from the spec: the Lazy Encoded Value type (`Hashid` in
`hashid_field/hashid.py`, not among the sources).  It wraps a raw
non-negative integer id; the memoized encoded string is computed from the id
on demand and plays no role in the operations embedded here, so only the id
is carried. -/
structure Hashid where
  id : Nat
deriving DecidableEq, Repr

/-- A Python value as seen by the descriptor and the field conversion
methods: `None`, a `Hashid` instance, an integer, or a string. -/
inductive Value where
  | none : Value
  | hashid (h : Hashid) : Value
  | int (n : Int) : Value
  | str (s : String) : Value
deriving DecidableEq, Repr

/-- The Python exceptions raised by the embedded code paths. -/
inductive PyError where
  | valueError (msg : String) : PyError
  | validationError (code : String) : PyError
  | typeError (msg : String) : PyError
deriving DecidableEq, Repr

/-- A wrapping function: the `Hashid` constructor applied to a value under a
fixed field configuration.  `Except.error ()` stands for the constructor
raising `ValueError`.  The embedded methods of `descriptor.py` and `field.py`
are parameterised over it, because the constructor itself lives in
`hashid_field/hashid.py`. -/
def WrapFun : Type := Value → Except Unit Hashid

/-- Modelled from the spec: the `Hashid` constructor from
`hashid_field/hashid.py` (not among the sources).  Per the spec it accepts a
raw non-negative integer, another instance, or a hashid string from which the
integer can be decoded under the configured salt/alphabet, and raises
`ValueError` for anything else.  The hashids library's string decoder is
abstracted as the parameter `decode`; no id encodes to the empty string, so
every real `decode` sends `""` to `Option.none`. -/
def hashidWrap (decode : String → Option Nat) : WrapFun := fun v =>
  match v with
  | Value.hashid h => Except.ok h
  | Value.int n => if 0 ≤ n then Except.ok ⟨n.toNat⟩ else Except.error ()
  | Value.str s =>
      match decode s with
      | Option.some n => Except.ok ⟨n⟩
      | Option.none => Except.error ()
  | Value.none => Except.error ()

/-- Modelled from the spec: a concrete decode function, describing one
configuration of the hashids primitive under which the string `"Mj3"` is the
encoding of the id `5` and the other strings used in the witnesses (in
particular `""` and `"bad"`) are not valid encodings. -/
def exampleDecode : String → Option Nat := fun s =>
  if s = "Mj3" then Option.some 5 else Option.none

/-- Whether a value is a `Hashid` instance (`isinstance(value, Hashid)`). -/
def Value.isHashid : Value → Bool
  | Value.hashid _ => true
  | _ => false

/-! ## The descriptor (`hashid_field/descriptor.py`) -/

/-- The state of `HashidDescriptor` after `__init__` (descriptor.py lines
6-12): the attribute name and the per-field configuration it closes over. -/
structure HashidDescriptor where
  name : String
  salt : Option String
  min_length : Nat
  alphabet : String
  pfx : Option String
deriving DecidableEq, Repr

/-- `HashidDescriptor.__set__` (descriptor.py lines 21-28).  A `Hashid`
instance or `None` is stored in the instance dictionary unchanged; any other
value is wrapped by the `Hashid` constructor, and if the constructor raises
`ValueError` the raw value is stored as-is.  The result is the new value of
`instance.__dict__[self.name]`; the method itself never raises. -/
def descriptorSet (wrap : WrapFun) (value : Value) : Value :=
  match value with
  | Value.hashid h => Value.hashid h
  | Value.none => Value.none
  | v =>
      match wrap v with
      | Except.ok h => Value.hashid h
      | Except.error _ => v

/-- `HashidDescriptor.__get__` (descriptor.py lines 14-19).  `store` is
`instance.__dict__.get(self.name)`: when the name is present the stored value
is wrapped by the `Hashid` constructor (with no exception handler, so a
`ValueError` propagates); when it is absent, or the access is on the class
(`instance is None`), the result is `None`. -/
def descriptorGet (wrap : WrapFun) (store : Option Value) : Except Unit (Option Hashid) :=
  match store with
  | Option.some v => (wrap v).map Option.some
  | Option.none => Except.ok Option.none

/-! ## The field mixin (`hashid_field/field.py`) -/

/-- The configuration stored on a field by `HashidFieldMixin.__init__`
(field.py lines 26-37). -/
structure FieldConfig where
  salt : Option String
  min_length : Nat
  alphabet : String
  pfx : Option String
  allow_int_lookup : Bool
deriving DecidableEq, Repr

/-- A configuration with the library defaults: no salt, no minimum length,
the hashids default alphabet, no prefix, integer lookups disallowed. -/
def defaultConfig : FieldConfig :=
  { salt := Option.none
    min_length := 0
    alphabet := "abcdefghijklmnopqrstuvwxyzABCDEFGHIJKLMNOPQRSTUVWXYZ1234567890"
    pfx := Option.none
    allow_int_lookup := false }

/-- The severity of a Django system-check message. -/
inductive CheckLevel where
  | error : CheckLevel
  | warning : CheckLevel
deriving DecidableEq, Repr

/-- A Django system-check message (`checks.Error` / `checks.Warning`): its
severity, message text and id. -/
structure CheckMessage where
  level : CheckLevel
  msg : String
  id : String
deriving DecidableEq, Repr

/-- `HashidFieldMixin._check_alphabet_min_length` (field.py lines 52-62):
a fatal `checks.Error` with id `HashidField.E001` when the configured
alphabet has fewer than 16 characters, otherwise no message. -/
def _check_alphabet_min_length (f : FieldConfig) : List CheckMessage :=
  if f.alphabet.length < 16 then
    [{ level := CheckLevel.error
       msg := "'alphabet' must contain a minimum of 16 characters"
       id := "HashidField.E001" }]
  else []

/-- `HashidFieldMixin._check_salt_is_set` (field.py lines 64-74): a
non-fatal `checks.Warning` with id `HashidField.W001` when the salt is `None`
or the empty string, otherwise no message. -/
def _check_salt_is_set (f : FieldConfig) : List CheckMessage :=
  if f.salt = Option.none ∨ f.salt = Option.some "" then
    [{ level := CheckLevel.warning
       msg := "'salt' is not set"
       id := "HashidField.W001" }]
  else []

/-- `HashidFieldMixin.check` (field.py lines 46-50): the parent class's
messages followed by the alphabet check and the salt check. -/
def fieldCheck (superMessages : List CheckMessage) (f : FieldConfig) : List CheckMessage :=
  superMessages ++ _check_alphabet_min_length f ++ _check_salt_is_set f

/-- `HashidFieldMixin.from_db_value` (field.py lines 79-80): the value
loaded from the database is returned unchanged; the `expression`,
`connection` and `context` arguments are ignored. -/
def from_db_value {E C X : Type} (value : Value) (expression : E) (connection : C)
    (context : X) : Value :=
  value

/-- `HashidFieldMixin.to_python` (field.py lines 91-104): a `Hashid`
instance and `None` are returned unchanged; any other value is wrapped by
`encode_id` (the `Hashid` constructor), and a `ValueError` from the
constructor is turned into a `ValidationError` with code `invalid`. -/
def to_python (wrap : WrapFun) (value : Value) : Except PyError Value :=
  match value with
  | Value.hashid h => Except.ok (Value.hashid h)
  | Value.none => Except.ok Value.none
  | v =>
      match wrap v with
      | Except.ok h => Except.ok (Value.hashid h)
      | Except.error _ => Except.error (PyError.validationError "invalid")

/-- Whether a Python value satisfies `value is None or value == ''`
(field.py line 107).  Integers never equal `''`, and a `Hashid` never
equals `''` because the encoded form of an id is a non-empty string. -/
def isNoneOrEmptyStr (value : Value) : Bool :=
  match value with
  | Value.none => true
  | Value.str s => s = ""
  | _ => false

/-- `HashidFieldMixin.get_prep_value` (field.py lines 106-115): `None` and
the empty string map to `None` (the row stores NULL); a `Hashid` instance
maps to its underlying integer id; any other value is wrapped by the
`Hashid` constructor and a `ValueError` from the constructor is re-raised as
a `ValueError` with the `invalid` message. -/
def get_prep_value (wrap : WrapFun) (value : Value) : Except PyError (Option Nat) :=
  if isNoneOrEmptyStr value then Except.ok Option.none
  else
    match value with
    | Value.hashid h => Except.ok (Option.some h.id)
    | v =>
        match wrap v with
        | Except.ok h => Except.ok (Option.some h.id)
        | Except.error _ =>
            Except.error (PyError.valueError
              "value must be a positive integer or a valid Hashids string.")

/-! ## Lookup resolution (`HashidFieldMixin.get_lookup`) -/

/-- `HashidFieldMixin.exact_lookups` (field.py line 22). -/
def exact_lookups : List String := ["exact", "iexact", "contains", "icontains"]

/-- `HashidFieldMixin.iterable_lookups` (field.py line 23). -/
def iterable_lookups : List String := ["in"]

/-- `HashidFieldMixin.passthrough_lookups` (field.py line 24). -/
def passthrough_lookups : List String := ["isnull"]

/-- The possible translators returned by `get_lookup`: the hashid-decoding
`HashidLookup`, the iterable `HashidIterableLookup`, or a lookup class
inherited from the parent field (`P` is whatever the parent's `get_lookup`
returns). -/
inductive LookupResolution (P : Type) where
  | hashid : LookupResolution P
  | hashidIterable : LookupResolution P
  | inherited (p : P) : LookupResolution P
deriving DecidableEq, Repr

/-- `HashidFieldMixin.get_lookup` (field.py lines 82-89): `HashidLookup`
for the names in `exact_lookups`, `HashidIterableLookup` for the names in
`iterable_lookups`, the parent field's resolution for the names in
`passthrough_lookups`, and `None` (no translator) for every other name. -/
def get_lookup {P : Type} (superLookup : String → Option P) (lookup_name : String) :
    Option (LookupResolution P) :=
  if lookup_name ∈ exact_lookups then Option.some LookupResolution.hashid
  else if lookup_name ∈ iterable_lookups then Option.some LookupResolution.hashidIterable
  else if lookup_name ∈ passthrough_lookups then
    (superLookup lookup_name).map LookupResolution.inherited
  else Option.none

/-! ## The iterable lookup translator (`HashidIterableLookup`) -/

/-- An element of the value list handed to an `in` lookup: either a raw
integer id or a (purported) hashid string. -/
inductive LookupElem where
  | int (n : Nat) : LookupElem
  | str (s : String) : LookupElem
deriving DecidableEq, Repr

/-- Modelled from the spec: the value translation performed by
`HashidIterableLookup` from `hashid_field/lookups.py`, which is not among
the sources.  Per the spec, each element of the filter list is decoded
individually to its integer; elements that fail to decode are silently
dropped rather than raising; and when `allow_int_lookup` is set, raw
integer elements are passed through unchanged instead of being treated as
hashid strings (when it is unset an integer is treated as a hashid string,
i.e. its decimal representation is decoded, which fails for strings that
are not valid encodings and drops the element). -/
def iterableLookupPrep (decode : String → Option Nat) (allow_int_lookup : Bool)
    (values : List LookupElem) : List Nat :=
  values.filterMap fun v =>
    match v with
    | LookupElem.int n =>
        if allow_int_lookup then Option.some n else decode (toString n)
    | LookupElem.str s => decode s

/-! ## The field classes and `contribute_to_class` -/

/-- The Python classes involved in the field hierarchy of `field.py`,
together with the Django base classes they extend. -/
inductive PyClass where
  | object : PyClass
  | field : PyClass
  | integerField : PyClass
  | autoField : PyClass
  | hashidFieldMixin : PyClass
  | hashidField : PyClass
  | hashidAutoField : PyClass
  | primaryKeyHashidProxyField : PyClass
deriving DecidableEq, Repr

/-- The ancestors (reflexive-transitive closure of the base classes) of
every class: `HashidField(HashidFieldMixin, models.IntegerField)`,
`HashidAutoField(HashidFieldMixin, models.AutoField)` and
`PrimaryKeyHashidProxyField(HashidFieldMixin, models.IntegerField)` from
field.py lines 118, 133 and 141, over Django's
`IntegerField < Field < object` and `AutoField < Field < object`. -/
def ancestors : PyClass → List PyClass
  | PyClass.object => [PyClass.object]
  | PyClass.field => [PyClass.field, PyClass.object]
  | PyClass.integerField => [PyClass.integerField, PyClass.field, PyClass.object]
  | PyClass.autoField => [PyClass.autoField, PyClass.field, PyClass.object]
  | PyClass.hashidFieldMixin => [PyClass.hashidFieldMixin, PyClass.object]
  | PyClass.hashidField =>
      [PyClass.hashidField, PyClass.hashidFieldMixin, PyClass.integerField,
       PyClass.field, PyClass.object]
  | PyClass.hashidAutoField =>
      [PyClass.hashidAutoField, PyClass.hashidFieldMixin, PyClass.autoField,
       PyClass.field, PyClass.object]
  | PyClass.primaryKeyHashidProxyField =>
      [PyClass.primaryKeyHashidProxyField, PyClass.hashidFieldMixin,
       PyClass.integerField, PyClass.field, PyClass.object]

/-- `issubclass(c, d)` over the hierarchy above; Python's
`super(d, self)` requires `isSubclassOf (type self) d`, and raises
`TypeError` otherwise. -/
def isSubclassOf (c d : PyClass) : Bool := d ∈ ancestors c

/-- The descriptor a field installs on the model class: field.py lines 130,
138 and 146 all build `HashidDescriptor(self.attname, salt=self.salt,
min_length=self.min_length, alphabet=self.alphabet, prefix=self.prefix)`. -/
def mkDescriptor (f : FieldConfig) (attname : String) : HashidDescriptor :=
  { name := attname
    salt := f.salt
    min_length := f.min_length
    alphabet := f.alphabet
    pfx := f.pfx }

/-- `HashidField.contribute_to_class` (field.py lines 128-130).
`selfClass` is the runtime class of the field instance; line 129 evaluates
`super(HashidField, self)`, which raises `TypeError` unless the instance's
class is a subclass of `HashidField`, and then line 130 installs the
descriptor on the model class under the attribute name.  The result is the
descriptor installed by `setattr`. -/
def HashidField.contribute_to_class (selfClass : PyClass) (f : FieldConfig)
    (attname : String) : Except PyError HashidDescriptor :=
  if isSubclassOf selfClass PyClass.hashidField then
    Except.ok (mkDescriptor f attname)
  else
    Except.error (PyError.typeError "super(type, obj): obj must be an instance or subtype of type")

/-- `HashidAutoField.contribute_to_class` (field.py lines 136-138).  The
body is a copy of `HashidField`'s method, including its
`super(HashidField, self)` call on line 137 — the guard really is against
`HashidField`, not `HashidAutoField`, exactly as written in the source. -/
def HashidAutoField.contribute_to_class (selfClass : PyClass) (f : FieldConfig)
    (attname : String) : Except PyError HashidDescriptor :=
  if isSubclassOf selfClass PyClass.hashidField then
    Except.ok (mkDescriptor f attname)
  else
    Except.error (PyError.typeError "super(type, obj): obj must be an instance or subtype of type")

/-- The observable effects of `PrimaryKeyHashidProxyField.contribute_to_class`:
the `virtual_only` flag passed to the parent, the descriptor installed on the
model class, and the value the lazily resolved `self.column` yields. -/
structure ProxyContribution where
  virtual_only : Bool
  descriptor : HashidDescriptor
  column : String
deriving DecidableEq, Repr

/-- `PrimaryKeyHashidProxyField.contribute_to_class` (field.py lines
143-148): line 144 forces `kwargs['virtual_only'] = True` before delegating
to the parent (so no storage column is created), line 146 installs the
descriptor, and line 148 sets `self.column` to a lazy object resolving to
`self.model._meta.pk.column` — the owning model's primary-key column,
passed here as `pkColumn`. -/
def PrimaryKeyHashidProxyField.contribute_to_class (f : FieldConfig)
    (attname : String) (pkColumn : String) : ProxyContribution :=
  { virtual_only := true
    descriptor := mkDescriptor f attname
    column := pkColumn }

/-! ## Theorems -/

/-- C1 (counterexample): the claim as stated fails at the empty string.  The
empty string is neither a `Hashid` instance nor `None` and cannot be wrapped
(the constructor raises `ValueError` on it under every configuration, here
the one described by `exampleDecode`); the descriptor's `__set__` indeed
stores it as-is, but `get_prep_value` returns `None` via the
`value is None or value == ''` shortcut instead of raising. -/
theorem c1_empty_string_counterexample :
    (Value.str "").isHashid = false ∧
    Value.str "" ≠ Value.none ∧
    hashidWrap exampleDecode (Value.str "") = Except.error () ∧
    descriptorSet (hashidWrap exampleDecode) (Value.str "") = Value.str "" ∧
    get_prep_value (hashidWrap exampleDecode) (Value.str "") = Except.ok Option.none := by
  refine ⟨rfl, by simp, ?_, ?_, rfl⟩
  · simp [hashidWrap, exampleDecode]
  · simp [descriptorSet, hashidWrap, exampleDecode]

/-- C1 (amended): for every value that is neither a `Hashid` instance nor
`None` **nor the empty string** and that cannot be wrapped, the descriptor's
`__set__` does not raise and stores the value as-is, while `get_prep_value`
raises a `ValueError`; the empty string is the one exception: `__set__`
still stores it as-is, but `get_prep_value` maps it to `None` (NULL) without
raising. -/
theorem c1_set_permissive_prep_raises (wrap : WrapFun) (v : Value)
    (hh : v.isHashid = false) (hn : v ≠ Value.none) (he : v ≠ Value.str "")
    (hw : wrap v = Except.error ()) :
    descriptorSet wrap v = v ∧
    get_prep_value wrap v =
      Except.error (PyError.valueError
        "value must be a positive integer or a valid Hashids string.") := by
  cases v with
  | none => exact absurd rfl hn
  | hashid h => exact absurd hh (by simp [Value.isHashid])
  | int n =>
      constructor
      · simp [descriptorSet, hw]
      · simp [get_prep_value, isNoneOrEmptyStr, hw]
  | str s =>
      have hs : s ≠ "" := fun h => he (by simp [h])
      constructor
      · simp [descriptorSet, hw]
      · simp [get_prep_value, isNoneOrEmptyStr, hs, hw]

/-- C1 (witness): the amended theorem at the undecodable string `"bad"`. -/
theorem c1_set_permissive_prep_raises_witness :
    descriptorSet (hashidWrap exampleDecode) (Value.str "bad") = Value.str "bad" ∧
    get_prep_value (hashidWrap exampleDecode) (Value.str "bad") =
      Except.error (PyError.valueError
        "value must be a positive integer or a valid Hashids string.") :=
  c1_set_permissive_prep_raises (hashidWrap exampleDecode) (Value.str "bad")
    rfl (by simp) (by simp) (by simp [hashidWrap, exampleDecode])

/-- C2: the contract of `HashidAutoField.contribute_to_class` is **not**
identical to `HashidField`'s.  Its body calls `super(HashidField, self)`
(field.py line 137), and a `HashidAutoField` instance is not an instance of
`HashidField` (the two classes are siblings under `HashidFieldMixin`), so
the call always raises `TypeError` and never installs the descriptor,
whereas `HashidField.contribute_to_class` succeeds and installs the
descriptor built from the field's salt, min_length, alphabet and prefix. -/
theorem c2_autofield_contribute_raises_typeerror :
    HashidAutoField.contribute_to_class PyClass.hashidAutoField defaultConfig "id" =
      Except.error (PyError.typeError
        "super(type, obj): obj must be an instance or subtype of type") ∧
    HashidField.contribute_to_class PyClass.hashidField defaultConfig "id" =
      Except.ok (mkDescriptor defaultConfig "id") ∧
    isSubclassOf PyClass.hashidAutoField PyClass.hashidField = false := by
  refine ⟨?_, ?_, by decide⟩
  · simp [HashidAutoField.contribute_to_class, isSubclassOf, ancestors]
  · simp [HashidField.contribute_to_class, isSubclassOf, ancestors]

/-- C3: `get_lookup` returns the hashid-decoding `HashidLookup` for
`exact`, `iexact`, `contains` and `icontains`, the iterable
`HashidIterableLookup` for `in`, the parent field's resolution for
`isnull`, and no translator at all for every other lookup name. -/
theorem c3_get_lookup_resolution {P : Type} (superLookup : String → Option P)
    (name : String) :
    ((name = "exact" ∨ name = "iexact" ∨ name = "contains" ∨ name = "icontains") →
      get_lookup superLookup name = Option.some LookupResolution.hashid) ∧
    (name = "in" →
      get_lookup superLookup name = Option.some LookupResolution.hashidIterable) ∧
    (name = "isnull" →
      get_lookup superLookup name = (superLookup name).map LookupResolution.inherited) ∧
    (name ≠ "exact" → name ≠ "iexact" → name ≠ "contains" → name ≠ "icontains" →
      name ≠ "in" → name ≠ "isnull" →
      get_lookup superLookup name = Option.none) := by
  refine ⟨?_, ?_, ?_, ?_⟩
  · rintro (rfl | rfl | rfl | rfl) <;> rfl
  · rintro rfl; rfl
  · rintro rfl; rfl
  · intro h1 h2 h3 h4 h5 h6
    simp [get_lookup, exact_lookups, iterable_lookups, passthrough_lookups,
      h1, h2, h3, h4, h5, h6]

/-- C3 (witness): the resolution at each kind of lookup name, with the
parent field resolving every name. -/
theorem c3_get_lookup_resolution_witness :
    get_lookup (fun _ => Option.some ()) "iexact" = Option.some LookupResolution.hashid ∧
    get_lookup (fun _ => Option.some ()) "in" =
      Option.some LookupResolution.hashidIterable ∧
    get_lookup (fun _ => Option.some ()) "isnull" =
      Option.some (LookupResolution.inherited ()) ∧
    get_lookup (fun _ : String => Option.some ()) "gt" = Option.none :=
  ⟨(c3_get_lookup_resolution (fun _ => Option.some ()) "iexact").1
      (Or.inr (Or.inl rfl)),
   (c3_get_lookup_resolution (fun _ => Option.some ()) "in").2.1 rfl,
   ((c3_get_lookup_resolution (fun _ => Option.some ()) "isnull").2.2.1 rfl).trans rfl,
   (c3_get_lookup_resolution (fun _ : String => Option.some ()) "gt").2.2.2
     (by simp) (by simp) (by simp) (by simp) (by simp) (by simp)⟩

/-- C4: `PrimaryKeyHashidProxyField.contribute_to_class` always forces
`virtual_only` (so the field never allocates its own storage column), and
the field's lazily resolved `column` always equals the owning model's
primary-key column. -/
theorem c4_proxy_virtual_only_and_pk_column (f : FieldConfig)
    (attname pkColumn : String) :
    (PrimaryKeyHashidProxyField.contribute_to_class f attname pkColumn).virtual_only = true ∧
    (PrimaryKeyHashidProxyField.contribute_to_class f attname pkColumn).column = pkColumn :=
  ⟨rfl, rfl⟩

/-- C5: in the value translation of an `in` lookup, each element is decoded
individually: a string element that decodes contributes exactly its integer
in place, a string element that fails to decode is silently dropped (the
translation is a total function, so the lookup never raises), and when
`allow_int_lookup` is set a raw integer element is passed through
unchanged. -/
theorem c5_iterable_lookup_translation (decode : String → Option Nat)
    (allow_int_lookup : Bool) (pre post : List LookupElem) (s : String) (n m : Nat) :
    (decode s = Option.none →
      iterableLookupPrep decode allow_int_lookup (pre ++ LookupElem.str s :: post) =
        iterableLookupPrep decode allow_int_lookup (pre ++ post)) ∧
    (decode s = Option.some n →
      iterableLookupPrep decode allow_int_lookup (pre ++ LookupElem.str s :: post) =
        iterableLookupPrep decode allow_int_lookup pre ++
          n :: iterableLookupPrep decode allow_int_lookup post) ∧
    (allow_int_lookup = true →
      iterableLookupPrep decode allow_int_lookup (pre ++ LookupElem.int m :: post) =
        iterableLookupPrep decode allow_int_lookup pre ++
          m :: iterableLookupPrep decode allow_int_lookup post) := by
  refine ⟨?_, ?_, ?_⟩
  · intro h
    simp [iterableLookupPrep, List.filterMap_append, List.filterMap_cons, h]
  · intro h
    simp [iterableLookupPrep, List.filterMap_append, List.filterMap_cons, h]
  · intro h
    simp [iterableLookupPrep, List.filterMap_append, List.filterMap_cons, h]

/-- C5 (witness): under the configuration described by `exampleDecode`, the
undecodable string `"bad"` is dropped, the decodable string `"Mj3"`
contributes its id `5`, and with integer lookups allowed the raw integer
`7` passes through. -/
theorem c5_iterable_lookup_translation_witness :
    iterableLookupPrep exampleDecode false [LookupElem.str "bad", LookupElem.str "Mj3"] =
      iterableLookupPrep exampleDecode false [LookupElem.str "Mj3"] ∧
    iterableLookupPrep exampleDecode false [LookupElem.str "Mj3"] =
      iterableLookupPrep exampleDecode false [] ++
        5 :: iterableLookupPrep exampleDecode false [] ∧
    iterableLookupPrep exampleDecode true [LookupElem.int 7] =
      iterableLookupPrep exampleDecode true [] ++
        7 :: iterableLookupPrep exampleDecode true [] :=
  ⟨(c5_iterable_lookup_translation exampleDecode false [] [LookupElem.str "Mj3"]
      "bad" 0 0).1 (by simp [exampleDecode]),
   (c5_iterable_lookup_translation exampleDecode false [] [] "Mj3" 5 0).2.1
     (by simp [exampleDecode]),
   (c5_iterable_lookup_translation exampleDecode true [] [] "" 0 7).2.2 rfl⟩

/-- C6: `to_python` returns a `Hashid` instance unchanged and returns
`None` unchanged; for any other value it returns the wrapped `Hashid`, and
it raises a `ValidationError` with code `invalid` if and only if the
`Hashid` constructor raises `ValueError` on the value. -/
theorem c6_to_python_wraps_or_validation_error (wrap : WrapFun) (v : Value) (h : Hashid) :
    to_python wrap (Value.hashid h) = Except.ok (Value.hashid h) ∧
    to_python wrap Value.none = Except.ok Value.none ∧
    (v.isHashid = false → v ≠ Value.none →
      ((to_python wrap v = Except.error (PyError.validationError "invalid")) ↔
          wrap v = Except.error ()) ∧
        ∀ hh : Hashid, wrap v = Except.ok hh →
          to_python wrap v = Except.ok (Value.hashid hh)) := by
  refine ⟨rfl, rfl, ?_⟩
  intro hv hn
  cases v with
  | none => exact absurd rfl hn
  | hashid h => exact absurd hv (by simp [Value.isHashid])
  | int n =>
      cases hw : wrap (Value.int n) with
      | ok hh => exact ⟨by simp [to_python, hw], fun h₂ hq => by
          simp [to_python, hw]; simpa [hw] using hq⟩
      | error u => exact ⟨by simp [to_python, hw], fun h₂ hq => by simp [hw] at hq⟩
  | str s =>
      cases hw : wrap (Value.str s) with
      | ok hh => exact ⟨by simp [to_python, hw], fun h₂ hq => by
          simp [to_python, hw]; simpa [hw] using hq⟩
      | error u => exact ⟨by simp [to_python, hw], fun h₂ hq => by simp [hw] at hq⟩

/-- C6 (witness): the theorem at the undecodable string `"bad"` and at the
decodable string `"Mj3"`, under the configuration described by
`exampleDecode`. -/
theorem c6_to_python_witness :
    to_python (hashidWrap exampleDecode) (Value.str "bad") =
      Except.error (PyError.validationError "invalid") ∧
    to_python (hashidWrap exampleDecode) (Value.str "Mj3") =
      Except.ok (Value.hashid ⟨5⟩) :=
  ⟨((c6_to_python_wraps_or_validation_error (hashidWrap exampleDecode)
        (Value.str "bad") ⟨0⟩).2.2 rfl (by simp)).1.mpr
      (by simp [hashidWrap, exampleDecode]),
   ((c6_to_python_wraps_or_validation_error (hashidWrap exampleDecode)
        (Value.str "Mj3") ⟨0⟩).2.2 rfl (by simp)).2 ⟨5⟩
      (by simp [hashidWrap, exampleDecode])⟩

/-- C7: the class-definition-time alphabet check produces exactly the fatal
`checks.Error` with id `HashidField.E001` when the configured alphabet has
fewer than 16 characters, and produces no message for an alphabet of 16 or
more characters. -/
theorem c7_alphabet_check (f : FieldConfig) :
    (f.alphabet.length < 16 →
      _check_alphabet_min_length f =
        [{ level := CheckLevel.error
           msg := "'alphabet' must contain a minimum of 16 characters"
           id := "HashidField.E001" }]) ∧
    (16 ≤ f.alphabet.length → _check_alphabet_min_length f = []) := by
  constructor
  · intro h; simp [_check_alphabet_min_length, h]
  · intro h; simp [_check_alphabet_min_length, Nat.not_lt.mpr h]

/-- C7 (witness): the check at a 15-character alphabet and at the default
62-character alphabet. -/
theorem c7_alphabet_check_witness :
    _check_alphabet_min_length { defaultConfig with alphabet := "0123456789abcde" } =
      [{ level := CheckLevel.error
         msg := "'alphabet' must contain a minimum of 16 characters"
         id := "HashidField.E001" }] ∧
    _check_alphabet_min_length defaultConfig = [] :=
  ⟨(c7_alphabet_check { defaultConfig with alphabet := "0123456789abcde" }).1 (by decide),
   (c7_alphabet_check defaultConfig).2 (by decide)⟩

/-- C8: the salt check produces exactly the non-fatal `checks.Warning` with
id `HashidField.W001` (not an Error) when the salt is `None` or the empty
string, and produces no message for any non-empty salt. -/
theorem c8_salt_check (f : FieldConfig) :
    ((f.salt = Option.none ∨ f.salt = Option.some "") →
      _check_salt_is_set f =
        [{ level := CheckLevel.warning
           msg := "'salt' is not set"
           id := "HashidField.W001" }]) ∧
    (∀ s : String, f.salt = Option.some s → s ≠ "" → _check_salt_is_set f = []) := by
  constructor
  · intro h; simp [_check_salt_is_set, h]
  · intro s hs hne
    simp [_check_salt_is_set, hs, hne]

/-- C8 (witness): the check with no salt (`None`) and with the non-empty
salt `"pepper"`. -/
theorem c8_salt_check_witness :
    _check_salt_is_set defaultConfig =
      [{ level := CheckLevel.warning
         msg := "'salt' is not set"
         id := "HashidField.W001" }] ∧
    _check_salt_is_set { defaultConfig with salt := Option.some "pepper" } = [] :=
  ⟨(c8_salt_check defaultConfig).1 (Or.inl rfl),
   (c8_salt_check { defaultConfig with salt := Option.some "pepper" }).2
     "pepper" rfl (by simp)⟩

/-- C9: `get_prep_value` treats the empty string exactly like `None`: both
map to `None` (the row stores NULL), and a `Hashid` instance maps to its
wrapped underlying integer id. -/
theorem c9_get_prep_value_null_and_id (wrap : WrapFun) (h : Hashid) :
    get_prep_value wrap Value.none = Except.ok Option.none ∧
    get_prep_value wrap (Value.str "") = Except.ok Option.none ∧
    get_prep_value wrap (Value.hashid h) = Except.ok (Option.some h.id) :=
  ⟨rfl, rfl, rfl⟩

/-- C10: `from_db_value` is the identity: whatever the database returns is
passed through unchanged, independent of the `expression`, `connection` and
`context` arguments, and the wrapping into a `Hashid` happens only later,
in the descriptor's `__get__`, which wraps the stored value on attribute
read. -/
theorem c10_from_db_value_identity {E C X : Type} (v : Value) (e : E) (c : C) (x : X)
    (wrap : WrapFun) (h : Hashid) :
    from_db_value v e c x = v ∧
    (wrap v = Except.ok h →
      descriptorGet wrap (Option.some (from_db_value v e c x)) =
        Except.ok (Option.some h)) := by
  constructor
  · rfl
  · intro hw
    simp [descriptorGet, from_db_value, hw, Except.map]

/-- C10 (witness): the identity and the later wrapping at the database
value `42`. -/
theorem c10_from_db_value_identity_witness :
    from_db_value (Value.int 42) () () () = Value.int 42 ∧
    descriptorGet (hashidWrap exampleDecode)
        (Option.some (from_db_value (Value.int 42) () () ())) =
      Except.ok (Option.some ⟨42⟩) :=
  ⟨(c10_from_db_value_identity (Value.int 42) () () () (hashidWrap exampleDecode) ⟨42⟩).1,
   (c10_from_db_value_identity (Value.int 42) () () ()
      (hashidWrap exampleDecode) ⟨42⟩).2 (by simp [hashidWrap])⟩

end HashidFieldModel
